import Mathlib

/-!
Verification of the express-jwt-protected-routes server.

The embedding follows src/server.js. The jsonwebtoken library is an external
dependency whose code is not in the repository, so its sign/verify operations
are modelled from the spec (sections 3 and 4) with an idealised injective MAC;
everything else (carrier extraction, middleware dispatch, route handlers, the
login handler) is translated directly from src/server.js.
-/

namespace ExpressJwt

/-- Identity claims payload placed into every token: the object passed to
jwt.sign in the login handler (src/server.js lines 102-107) has exactly the
fields id, username and email. -/
structure Claims where
  id : Nat
  username : String
  email : String
deriving DecidableEq, Repr

/-- Modelled from the spec: the symmetric MAC of the jsonwebtoken library
(an external dependency, not in src/). Spec section 3: Signature =
MAC(Header || Claims, secret), with the invariant that any alteration to
header or claims invalidates the signature under the same secret. The MAC is
idealised as a value that records exactly its inputs, hence is injective in
the secret and in every signed component. -/
structure Sig where
  secret : String
  header : String
  payload : Claims
  iat : Nat
  exp : Nat
deriving DecidableEq, Repr

/-- Modelled from the spec: computing the MAC over the unsigned representation. -/
def mac (secret header : String) (payload : Claims) (iat exp : Nat) : Sig :=
  ⟨secret, header, payload, iat, exp⟩

/-- Modelled from the spec: a token artifact, spec section 3:
encode(Header, Claims-with-expiry, Signature). The three segments are kept
as structured fields rather than base64url text; the claims segment carries
the payload together with the issued-at and expiry timestamps. -/
structure Token where
  header : String
  payload : Claims
  iat : Nat
  exp : Nat
  sig : Sig
deriving DecidableEq, Repr

namespace Jwt

/-- Modelled from the spec: jwt.sign (spec section 4.1): serialise header,
claims and the computed expiry (issuance time plus the validity window, in
seconds; the login handler passes expiresIn 1h = 3600 s), sign with the
shared secret under the fixed algorithm HS256. -/
def sign (payload : Claims) (secret : String) (now expSec : Nat) : Token :=
  { header := "HS256"
    payload := payload
    iat := now
    exp := now + expSec
    sig := mac secret "HS256" payload now (now + expSec) }

/-- The error classes thrown by jwt.verify that verifyToken distinguishes
(src/server.js lines 54-62): TokenExpiredError, JsonWebTokenError, and a
catch-all for anything else. -/
inductive Error where
  | TokenExpiredError
  | JsonWebTokenError
  | OtherError
deriving DecidableEq, Repr

/-- Modelled from the spec: jwt.verify (spec section 4.2): recompute the
signature over the unsigned representation and compare; mismatch fails as
invalid (JsonWebTokenError); with a valid signature, a current time at or
past the embedded expiry fails as expired (TokenExpiredError); otherwise the
embedded claims are returned exactly as issued. -/
def verify (t : Token) (secret : String) (now : Nat) : Except Error Claims :=
  if t.sig = mac secret t.header t.payload t.iat t.exp then
    if t.exp ≤ now then .error .TokenExpiredError else .ok t.payload
  else .error .JsonWebTokenError

end Jwt

/-- Outcome of the carrier-extraction phase of verifyToken
(src/server.js lines 31-43). -/
inductive Extract where
  | noToken
  | malformed
  | pass (token : String)
deriving DecidableEq, Repr

/-- The JS expression authHeader.startsWith('Bearer ') ? authHeader.slice(7) : null
(src/server.js line 39), over the character list of the header value. -/
def bearerRest (h : String) : Option String :=
  if h.data.take 7 = "Bearer ".data then some (String.mk (h.data.drop 7)) else none

/-- Carrier extraction performed by verifyToken (src/server.js lines 31-43):
a JS-falsy authorization header (absent, or present with the empty string as
value) answers 401 No token provided; otherwise the token is the slice after
the Bearer prefix when the header starts with it, else null, and a null or
empty (JS-falsy) token answers 401 Invalid token format; otherwise the token
is handed to jwt.verify. -/
def extractToken (authHeader : Option String) : Extract :=
  match authHeader with
  | none => .noToken
  | some h =>
    if h = "" then .noToken
    else
      match bearerRest h with
      | none => .malformed
      | some t => if t = "" then .malformed else .pass t

/-- Result of the request gate: either a response is sent and the chain
stops, or the reconstructed claims are attached to req.user and control
passes to the downstream handler via next(). -/
inductive GateResult where
  | denied (status : Nat) (message : String)
  | allowed (user : Claims)
deriving DecidableEq, Repr

/-- The verifyToken middleware (src/server.js lines 29-64), parametric in the
verification function (jwt.verify with the process secret and clock fixed):
classify the carrier, then verify the extracted token, mapping
TokenExpiredError to 401 Token has expired, JsonWebTokenError to 401 Invalid
token, and any other error to 401 Token verification failed. -/
def verifyToken (vf : String → Except Jwt.Error Claims)
    (authHeader : Option String) : GateResult :=
  match extractToken authHeader with
  | .noToken => .denied 401 "No token provided"
  | .malformed => .denied 401 "Invalid token format. Use Bearer <token>"
  | .pass t =>
    match vf t with
    | .ok decoded => .allowed decoded
    | .error .TokenExpiredError => .denied 401 "Token has expired"
    | .error .JsonWebTokenError => .denied 401 "Invalid token"
    | .error .OtherError => .denied 401 "Token verification failed"

/-- JSON-like values, to make the field names of response objects
observable. -/
inductive JVal where
  | s (v : String)
  | n (v : Nat)
  | o (fields : List (String × JVal))

/-- An HTTP response: status code and JSON body. -/
structure Response where
  status : Nat
  body : JVal

/-- Error responses sent by the middleware: res.status(...).json with a
message field. -/
def errBody (m : String) : JVal := .o [("message", .s m)]

/-- The user object of the GET /api/profile response
(src/server.js lines 131-135): fields id, username, email taken from
req.user. -/
def profileUser (u : Claims) : List (String × JVal) :=
  [("id", .n u.id), ("username", .s u.username), ("email", .s u.email)]

/-- The GET /api/profile success body (src/server.js lines 129-136). -/
def profileBody (u : Claims) : JVal :=
  .o [("message", .s "User profile data"), ("user", .o (profileUser u))]

/-- The data object of the GET /api/user-data response
(src/server.js lines 148-152): userId from req.user.id, the constant
accessLevel admin, and lastAccessed from the current clock. -/
def userDataFields (u : Claims) (lastAccessed : String) : List (String × JVal) :=
  [("userId", .n u.id), ("accessLevel", .s "admin"), ("lastAccessed", .s lastAccessed)]

/-- The GET /api/user-data success body (src/server.js lines 146-153). -/
def userDataBody (u : Claims) (lastAccessed : String) : JVal :=
  .o [("message", .s "This is protected user data"), ("data", .o (userDataFields u lastAccessed))]

/-- Express dispatch of a protected route: the verifyToken middleware runs
first; only when it calls next() with claims attached does the downstream
handler run, otherwise the middleware response is the route's response. -/
def runProtected (vf : String → Except Jwt.Error Claims)
    (authHeader : Option String) (handler : Claims → Response) : Response :=
  match verifyToken vf authHeader with
  | .denied st m => ⟨st, errBody m⟩
  | .allowed u => handler u

/-- GET /api/profile (src/server.js lines 128-137). -/
def profileRoute (vf : String → Except Jwt.Error Claims)
    (authHeader : Option String) : Response :=
  runProtected vf authHeader (fun u => ⟨200, profileBody u⟩)

/-- GET /api/user-data (src/server.js lines 145-154); lastAccessed is the
serialised current instant. -/
def userDataRoute (vf : String → Except Jwt.Error Claims)
    (authHeader : Option String) (lastAccessed : String) : Response :=
  runProtected vf authHeader (fun u => ⟨200, userDataBody u lastAccessed⟩)

/-- The hardcoded demo user (src/server.js lines 15-20). -/
structure User where
  id : Nat
  username : String
  password : String
  email : String
deriving DecidableEq, Repr

/-- DEMO_USER (src/server.js lines 15-20). -/
def DEMO_USER : User :=
  { id := 1, username := "admin", password := "password123", email := "admin@example.com" }

/-- JS falsiness of a destructured request-body string field: undefined
(absent) and the empty string are falsy. -/
def falsyStr (v : Option String) : Bool :=
  match v with
  | none => true
  | some st => st == ""

/-- Body of a POST /api/login request after JSON parsing and destructuring
(src/server.js line 92); absent fields are undefined. -/
structure LoginBody where
  username : Option String
  password : Option String
deriving DecidableEq, Repr

/-- Response of the login route: status, message, and the issued token when
login succeeds. -/
structure LoginResult where
  status : Nat
  message : String
  token : Option Token
deriving DecidableEq, Repr

/-- POST /api/login (src/server.js lines 91-120): 400 when username or
password is JS-falsy; on an exact match with DEMO_USER, sign a token over
id, username and email with expiresIn one hour and answer 200; otherwise
401 Invalid credentials. -/
def loginRoute (secret : String) (now : Nat) (body : LoginBody) : LoginResult :=
  if falsyStr body.username || falsyStr body.password then
    ⟨400, "Username and password are required", none⟩
  else if body.username = some DEMO_USER.username ∧ body.password = some DEMO_USER.password then
    ⟨200, "Login successful",
      some (Jwt.sign ⟨DEMO_USER.id, DEMO_USER.username, DEMO_USER.email⟩ secret now 3600)⟩
  else
    ⟨401, "Invalid credentials", none⟩

/-! ### Helper lemmas shared by several claims -/

/-- A token signed and verified under the same secret yields its claims back
at any time strictly before the embedded expiry. -/
theorem verify_sign_ok (c : Claims) (secret : String) (tIssue now expSec : Nat)
    (h : now < tIssue + expSec) :
    Jwt.verify (Jwt.sign c secret tIssue expSec) secret now = .ok c := by
  unfold Jwt.verify Jwt.sign
  simp [mac, Nat.not_le.mpr h]

/-- Verification fails as invalid whenever the embedded signature differs
from the recomputed MAC. -/
theorem verify_sig_mismatch (t : Token) (secret : String) (now : Nat)
    (h : t.sig ≠ mac secret t.header t.payload t.iat t.exp) :
    Jwt.verify t secret now = .error .JsonWebTokenError := by
  unfold Jwt.verify
  rw [if_neg h]

/-! ### Claims -/

/-- C1: Round-trip — for every fully-formed identity claims object, issuing a
token as the login path does (signing with expiresIn one hour) and then
verifying that token with the same secret at any time before the token's
expiry returns a claims payload equal to the original claims. -/
theorem c1_issue_verify_round_trip (c : Claims) (secret : String)
    (tIssue now : Nat) (h : now < tIssue + 3600) :
    Jwt.verify (Jwt.sign c secret tIssue 3600) secret now = .ok c :=
  verify_sign_ok c secret tIssue now 3600 h

/-- C1 witness: the round-trip at a concrete claims object, secret and
instant. -/
theorem c1_issue_verify_round_trip_witness :
    Jwt.verify (Jwt.sign ⟨1, "admin", "admin@example.com"⟩ "secret" 100 3600) "secret" 200 =
      .ok ⟨1, "admin", "admin@example.com"⟩ :=
  c1_issue_verify_round_trip ⟨1, "admin", "admin@example.com"⟩ "secret" 100 200 (by decide)

/-- C4: Expiry semantics — every token issued by the login path embeds an
absolute expiry equal to issuance plus one hour (3600 s), and for every token
with a valid signature, verification fails with the expired outcome exactly
when the current time is at or past the embedded expiry, and never before
(before it, the claims are returned). -/
theorem c4_expiry_semantics (c : Claims) (secret : String) (iat now : Nat)
    (t : Token) (hsig : t.sig = mac secret t.header t.payload t.iat t.exp) :
    (Jwt.sign c secret iat 3600).exp = iat + 3600 ∧
    (Jwt.verify t secret now = .error .TokenExpiredError ↔ t.exp ≤ now) ∧
    (now < t.exp → Jwt.verify t secret now = .ok t.payload) := by
  refine ⟨rfl, ?_, ?_⟩
  · unfold Jwt.verify
    rw [if_pos hsig]
    by_cases hle : t.exp ≤ now <;> simp [hle]
  · intro hlt
    unfold Jwt.verify
    rw [if_pos hsig, if_neg (by omega)]

/-- C4 witness: for a concrete token issued at 0 with window 3600,
verification at time 3600 is expired and at time 3599 succeeds. -/
theorem c4_expiry_semantics_witness :
    Jwt.verify (Jwt.sign ⟨1, "admin", "admin@example.com"⟩ "s" 0 3600) "s" 3600 =
      .error .TokenExpiredError ∧
    Jwt.verify (Jwt.sign ⟨1, "admin", "admin@example.com"⟩ "s" 0 3600) "s" 3599 =
      .ok ⟨1, "admin", "admin@example.com"⟩ := by
  constructor
  · exact (c4_expiry_semantics ⟨1, "admin", "admin@example.com"⟩ "s" 0 3600
      (Jwt.sign ⟨1, "admin", "admin@example.com"⟩ "s" 0 3600) rfl).2.1.mpr (by decide)
  · exact (c4_expiry_semantics ⟨1, "admin", "admin@example.com"⟩ "s" 0 3599
      (Jwt.sign ⟨1, "admin", "admin@example.com"⟩ "s" 0 3600) rfl).2.2 (by decide)

/-- C8: Distinct issuance — two token-issuance calls with identical claims at
different instants yield different tokens (differing in issued-at/expiry),
and each token independently verifies to the same claims until its own
expiry. -/
theorem c8_distinct_issuance (c : Claims) (secret : String)
    (t1 t2 now1 now2 : Nat) (hne : t1 ≠ t2)
    (h1 : now1 < t1 + 3600) (h2 : now2 < t2 + 3600) :
    Jwt.sign c secret t1 3600 ≠ Jwt.sign c secret t2 3600 ∧
    Jwt.verify (Jwt.sign c secret t1 3600) secret now1 = .ok c ∧
    Jwt.verify (Jwt.sign c secret t2 3600) secret now2 = .ok c := by
  refine ⟨?_, verify_sign_ok c secret t1 now1 3600 h1, verify_sign_ok c secret t2 now2 3600 h2⟩
  intro heq
  have hiat := congrArg Token.iat heq
  simp only [Jwt.sign] at hiat
  exact hne hiat

/-- C8 witness: issuance at instants 0 and 1 with the same claims. -/
theorem c8_distinct_issuance_witness :
    Jwt.sign ⟨1, "admin", "admin@example.com"⟩ "s" 0 3600 ≠
      Jwt.sign ⟨1, "admin", "admin@example.com"⟩ "s" 1 3600 ∧
    Jwt.verify (Jwt.sign ⟨1, "admin", "admin@example.com"⟩ "s" 0 3600) "s" 5 =
      .ok ⟨1, "admin", "admin@example.com"⟩ ∧
    Jwt.verify (Jwt.sign ⟨1, "admin", "admin@example.com"⟩ "s" 1 3600) "s" 6 =
      .ok ⟨1, "admin", "admin@example.com"⟩ :=
  c8_distinct_issuance ⟨1, "admin", "admin@example.com"⟩ "s" 0 1 5 6
    (by decide) (by decide) (by decide)

/-- C3: Signature integrity — altering the header, the claims payload, the
embedded expiry or the signature segment of an issued token, and signing
under a secret different from the verifier's, each cause verification to
fail with the invalid-token outcome; verification never succeeds for such
tokens. -/
theorem c3_signature_integrity (c : Claims) (secret : String) (iat now : Nat) :
    (∀ h2, h2 ≠ "HS256" →
      Jwt.verify { Jwt.sign c secret iat 3600 with header := h2 } secret now =
        .error .JsonWebTokenError) ∧
    (∀ c2, c2 ≠ c →
      Jwt.verify { Jwt.sign c secret iat 3600 with payload := c2 } secret now =
        .error .JsonWebTokenError) ∧
    (∀ e2, e2 ≠ iat + 3600 →
      Jwt.verify { Jwt.sign c secret iat 3600 with exp := e2 } secret now =
        .error .JsonWebTokenError) ∧
    (∀ sg, sg ≠ (Jwt.sign c secret iat 3600).sig →
      Jwt.verify { Jwt.sign c secret iat 3600 with sig := sg } secret now =
        .error .JsonWebTokenError) ∧
    (∀ secret2, secret2 ≠ secret → ∀ expSec,
      Jwt.verify (Jwt.sign c secret2 iat expSec) secret now =
        .error .JsonWebTokenError) := by
  refine ⟨?_, ?_, ?_, ?_, ?_⟩
  · intro h2 hne
    apply verify_sig_mismatch
    simp only [Jwt.sign, mac]
    intro heq
    exact hne (congrArg Sig.header heq).symm
  · intro c2 hne
    apply verify_sig_mismatch
    simp only [Jwt.sign, mac]
    intro heq
    exact hne (congrArg Sig.payload heq).symm
  · intro e2 hne
    apply verify_sig_mismatch
    simp only [Jwt.sign, mac]
    intro heq
    exact hne (congrArg Sig.exp heq).symm
  · intro sg hne
    apply verify_sig_mismatch
    simp only [Jwt.sign, mac] at hne ⊢
    exact hne
  · intro secret2 hne expSec
    apply verify_sig_mismatch
    simp only [Jwt.sign, mac]
    intro heq
    exact hne (congrArg Sig.secret heq)

/-- C3 witness: each alteration of a concrete issued token, and a concrete
cross-secret token, is rejected as invalid. -/
theorem c3_signature_integrity_witness :
    Jwt.verify { Jwt.sign ⟨1, "admin", "admin@example.com"⟩ "s" 0 3600 with
      header := "none" } "s" 0 = .error .JsonWebTokenError ∧
    Jwt.verify { Jwt.sign ⟨1, "admin", "admin@example.com"⟩ "s" 0 3600 with
      payload := ⟨2, "admin", "admin@example.com"⟩ } "s" 0 = .error .JsonWebTokenError ∧
    Jwt.verify { Jwt.sign ⟨1, "admin", "admin@example.com"⟩ "s" 0 3600 with
      exp := 7200 } "s" 0 = .error .JsonWebTokenError ∧
    Jwt.verify { Jwt.sign ⟨1, "admin", "admin@example.com"⟩ "s" 0 3600 with
      sig := mac "x" "HS256" ⟨1, "admin", "admin@example.com"⟩ 0 3600 } "s" 0 =
      .error .JsonWebTokenError ∧
    Jwt.verify (Jwt.sign ⟨1, "admin", "admin@example.com"⟩ "x" 0 3600) "s" 0 =
      .error .JsonWebTokenError := by
  have h := c3_signature_integrity ⟨1, "admin", "admin@example.com"⟩ "s" 0 0
  exact ⟨h.1 "none" (by decide), h.2.1 ⟨2, "admin", "admin@example.com"⟩ (by decide),
    h.2.2.1 7200 (by decide), h.2.2.2.1 _ (by decide), h.2.2.2.2 "x" (by decide) 3600⟩

/-- The middleware yields allowed claims exactly when extraction passes a
token that the verification function accepts. -/
theorem verifyToken_allowed_iff (vf : String → Except Jwt.Error Claims)
    (ah : Option String) (c : Claims) :
    verifyToken vf ah = GateResult.allowed c ↔
      ∃ t, extractToken ah = Extract.pass t ∧ vf t = Except.ok c := by
  unfold verifyToken
  cases hx : extractToken ah with
  | noToken => simp
  | malformed => simp
  | pass t0 =>
    cases hv : vf t0 with
    | ok d => simp [hv]
    | error e => cases e <;> simp [hv]

/-- The middleware result is one of the five fixed denials or an allowance. -/
theorem verifyToken_cases (vf : String → Except Jwt.Error Claims)
    (ah : Option String) :
    verifyToken vf ah = GateResult.denied 401 "No token provided" ∨
    verifyToken vf ah = GateResult.denied 401 "Invalid token format. Use Bearer <token>" ∨
    verifyToken vf ah = GateResult.denied 401 "Token has expired" ∨
    verifyToken vf ah = GateResult.denied 401 "Invalid token" ∨
    verifyToken vf ah = GateResult.denied 401 "Token verification failed" ∨
    ∃ c, verifyToken vf ah = GateResult.allowed c := by
  unfold verifyToken
  split
  · exact Or.inl rfl
  · exact Or.inr (Or.inl rfl)
  · split
    · exact Or.inr (Or.inr (Or.inr (Or.inr (Or.inr ⟨_, rfl⟩))))
    · exact Or.inr (Or.inr (Or.inl rfl))
    · exact Or.inr (Or.inr (Or.inr (Or.inl rfl)))
    · exact Or.inr (Or.inr (Or.inr (Or.inr (Or.inl rfl))))

/-- Every denial issued by the middleware carries status 401. -/
theorem verifyToken_denied_401 (vf : String → Except Jwt.Error Claims)
    (ah : Option String) (st : Nat) (m : String)
    (h : verifyToken vf ah = GateResult.denied st m) : st = 401 := by
  rcases verifyToken_cases vf ah with hc | hc | hc | hc | hc | ⟨c, hc⟩ <;> rw [hc] at h
  case _ => injection h with h1 h2; exact h1.symm
  case _ => injection h with h1 h2; exact h1.symm
  case _ => injection h with h1 h2; exact h1.symm
  case _ => injection h with h1 h2; exact h1.symm
  case _ => injection h with h1 h2; exact h1.symm
  case _ => exact absurd h (by simp)

/-- C2: Request-gate protection — on GET /api/profile and GET /api/user-data
the downstream handler runs exactly when the extracted token verifies, with
the reconstructed claims attached; on any verification failure the response
is a 401 built by the middleware and no handler runs (the response is the
same whatever the downstream handler is). -/
theorem c2_gate_protection (vf : String → Except Jwt.Error Claims)
    (ah : Option String) (la : String) :
    (∀ c, verifyToken vf ah = GateResult.allowed c ↔
        ∃ t, extractToken ah = Extract.pass t ∧ vf t = Except.ok c) ∧
    (∀ c, verifyToken vf ah = GateResult.allowed c →
        profileRoute vf ah = ⟨200, profileBody c⟩ ∧
        userDataRoute vf ah la = ⟨200, userDataBody c la⟩) ∧
    (∀ st m, verifyToken vf ah = GateResult.denied st m →
        st = 401 ∧ ∀ handler, runProtected vf ah handler = ⟨401, errBody m⟩) := by
  refine ⟨fun c => verifyToken_allowed_iff vf ah c, fun c hc => ⟨?_, ?_⟩,
    fun st m hd => ⟨verifyToken_denied_401 vf ah st m hd, fun handler => ?_⟩⟩
  · unfold profileRoute runProtected
    rw [hc]
  · unfold userDataRoute runProtected
    rw [hc]
  · unfold runProtected
    rw [hd, verifyToken_denied_401 vf ah st m hd]

/-- C2 witness: with a verification function that accepts, the profile
handler runs on the attached claims; with one that rejects as invalid, the
gate answers 401 Invalid token for any handler. -/
theorem c2_gate_protection_witness :
    profileRoute (fun _ => .ok ⟨1, "admin", "admin@example.com"⟩) (some "Bearer abc") =
      ⟨200, profileBody ⟨1, "admin", "admin@example.com"⟩⟩ ∧
    runProtected (fun _ => .error .JsonWebTokenError) (some "Bearer abc")
      (fun u => ⟨200, profileBody u⟩) = ⟨401, errBody "Invalid token"⟩ := by
  constructor
  · exact ((c2_gate_protection (fun _ => .ok ⟨1, "admin", "admin@example.com"⟩)
      (some "Bearer abc") "x").2.1 ⟨1, "admin", "admin@example.com"⟩ (by decide)).1
  · exact ((c2_gate_protection (fun _ => .error .JsonWebTokenError)
      (some "Bearer abc") "x").2.2 401 "Invalid token" (by decide)).2 _

/-- C5 counterexample: the header "Bearer " starts with the Bearer prefix,
yet the empty remainder is not passed to the verifier as the claim states —
the request is classified malformed instead. -/
theorem c5_counterexample :
    extractToken (some "Bearer ") ≠ Extract.pass "" ∧
    extractToken (some "Bearer ") = Extract.malformed := by
  decide

/-- C5 (amended): an absent header — or one whose value is the empty string,
which is equally JS-falsy — yields NoTokenProvided and the verifier is never
invoked; a non-empty header without the Bearer prefix, or one whose
remainder after the prefix is empty, yields MalformedCarrier and the
verifier is never invoked; otherwise the non-empty remainder after the
prefix is passed to the verifier. -/
theorem c5_carrier_extraction (h : String) :
    extractToken none = Extract.noToken ∧
    extractToken (some "") = Extract.noToken ∧
    (h ≠ "" → bearerRest h = none → extractToken (some h) = Extract.malformed) ∧
    (∀ t, bearerRest h = some t → t ≠ "" → extractToken (some h) = Extract.pass t) ∧
    (∀ t, bearerRest h = some t → t = "" → extractToken (some h) = Extract.malformed) ∧
    (∀ (v1 v2 : String → Except Jwt.Error Claims) (ah : Option String),
      (extractToken ah = Extract.noToken ∨ extractToken ah = Extract.malformed) →
      verifyToken v1 ah = verifyToken v2 ah) ∧
    (∀ v : String → Except Jwt.Error Claims,
      verifyToken v none = GateResult.denied 401 "No token provided") ∧
    (∀ v : String → Except Jwt.Error Claims, extractToken (some h) = Extract.malformed →
      verifyToken v (some h) = GateResult.denied 401 "Invalid token format. Use Bearer <token>") := by
  have hempty : bearerRest "" = none := by decide
  refine ⟨rfl, by decide, ?_, ?_, ?_, ?_, fun v => rfl, ?_⟩
  · intro hne hb
    simp [extractToken, hne, hb]
  · intro t hb htne
    have hne : h ≠ "" := by
      intro he
      rw [he, hempty] at hb
      exact Option.noConfusion hb
    simp [extractToken, hne, hb, htne]
  · intro t hb hte
    have hne : h ≠ "" := by
      intro he
      rw [he, hempty] at hb
      exact Option.noConfusion hb
    simp [extractToken, hne, hb, hte]
  · intro v1 v2 ah hcase
    unfold verifyToken
    rcases hcase with hc | hc <;> rw [hc]
  · intro v hm
    unfold verifyToken
    rw [hm]

/-- C5 witness: a header without the prefix is malformed; a well-formed
bearer header passes its token through. -/
theorem c5_carrier_extraction_witness :
    extractToken (some "xyz") = Extract.malformed ∧
    extractToken (some "Bearer abc") = Extract.pass "abc" := by
  constructor
  · exact (c5_carrier_extraction "xyz").2.2.1 (by decide) (by decide)
  · exact (c5_carrier_extraction "Bearer abc").2.2.2.1 "abc" (by decide) (by decide)

/-- C9: the headers "Bearer " (empty remainder) and "Bearer" (no trailing
space) are both classified as malformed — 401 Invalid token format — for
every verification function, so the verifier is never invoked and neither
the no-token nor the invalid-token outcome is produced. -/
theorem c9_empty_bearer_token :
    extractToken (some "Bearer ") = Extract.malformed ∧
    extractToken (some "Bearer") = Extract.malformed ∧
    ∀ v : String → Except Jwt.Error Claims,
      verifyToken v (some "Bearer ") =
        GateResult.denied 401 "Invalid token format. Use Bearer <token>" ∧
      verifyToken v (some "Bearer") =
        GateResult.denied 401 "Invalid token format. Use Bearer <token>" := by
  have he1 : extractToken (some "Bearer ") = Extract.malformed := by decide
  have he2 : extractToken (some "Bearer") = Extract.malformed := by decide
  refine ⟨he1, he2, fun v => ⟨?_, ?_⟩⟩
  · unfold verifyToken
    rw [he1]
  · unfold verifyToken
    rw [he2]

/-- JS falsiness of an optional string field: absent or empty. -/
theorem falsyStr_iff (v : Option String) :
    falsyStr v = true ↔ v = none ∨ v = some "" := by
  cases v <;> simp [falsyStr]

/-- C6: Login classification — the response is 400 Username and password are
required exactly when username or password is missing or empty; 200 Login
successful with the issued token exactly when both fields equal the demo
credential by exact string equality; 401 Invalid credentials in every other
case. -/
theorem c6_login_classification (secret : String) (now : Nat) (u p : Option String) :
    (loginRoute secret now ⟨u, p⟩ = ⟨400, "Username and password are required", none⟩ ↔
      (u = none ∨ u = some "" ∨ p = none ∨ p = some "")) ∧
    (loginRoute secret now ⟨u, p⟩ =
        ⟨200, "Login successful",
          some (Jwt.sign ⟨1, "admin", "admin@example.com"⟩ secret now 3600)⟩ ↔
      (u = some "admin" ∧ p = some "password123")) ∧
    (¬(u = none ∨ u = some "" ∨ p = none ∨ p = some "") →
      ¬(u = some "admin" ∧ p = some "password123") →
      loginRoute secret now ⟨u, p⟩ = ⟨401, "Invalid credentials", none⟩) := by
  have hfu := falsyStr_iff u
  have hfp := falsyStr_iff p
  unfold loginRoute
  by_cases h1 : (falsyStr u || falsyStr p) = true
  · rw [if_pos h1]
    rw [Bool.or_eq_true, hfu, hfp] at h1
    refine ⟨iff_of_true rfl (by tauto), iff_of_false (by simp) ?_, ?_⟩
    · rintro ⟨hu, hp⟩
      subst hu
      subst hp
      exact absurd h1 (by decide)
    · intro hno _
      exact absurd (by tauto) hno
  · rw [if_neg h1]
    have hno : ¬(u = none ∨ u = some "" ∨ p = none ∨ p = some "") := by
      intro hd
      apply h1
      rw [Bool.or_eq_true, hfu, hfp]
      tauto
    by_cases h2 : u = some DEMO_USER.username ∧ p = some DEMO_USER.password
    · rw [if_pos h2]
      obtain ⟨hu, hp⟩ := h2
      exact ⟨iff_of_false (by simp) hno, iff_of_true rfl ⟨hu, hp⟩,
        fun _ hcred => absurd ⟨hu, hp⟩ hcred⟩
    · rw [if_neg h2]
      exact ⟨iff_of_false (by simp) hno, iff_of_false (by simp) h2, fun _ _ => rfl⟩

/-- C6 witness: an empty body is 400, the demo credential is 200 with the
issued token, a wrong password is 401. -/
theorem c6_login_classification_witness :
    loginRoute "s" 0 ⟨none, none⟩ = ⟨400, "Username and password are required", none⟩ ∧
    loginRoute "s" 0 ⟨some "admin", some "password123"⟩ =
      ⟨200, "Login successful", some (Jwt.sign ⟨1, "admin", "admin@example.com"⟩ "s" 0 3600)⟩ ∧
    loginRoute "s" 0 ⟨some "admin", some "wrong"⟩ = ⟨401, "Invalid credentials", none⟩ := by
  refine ⟨?_, ?_, ?_⟩
  · exact (c6_login_classification "s" 0 none none).1.mpr (by tauto)
  · exact (c6_login_classification "s" 0 (some "admin") (some "password123")).2.1.mpr ⟨rfl, rfl⟩
  · exact (c6_login_classification "s" 0 (some "admin") (some "wrong")).2.2
      (by decide) (by decide)

/-- C7 counterexample: the user object built by GET /api/profile for the
demo identity has no subjectId field — the claim's lookup of subjectId does
not yield 1. -/
theorem c7_counterexample :
    List.lookup "subjectId" (profileUser ⟨1, "admin", "admin@example.com"⟩) ≠
      some (JVal.n 1) := by
  simp [profileUser, List.lookup]

/-- C7 (amended): the claims payload and the profile user object use the
field names id, username and email (id, not subjectId); logging in with the
demo credential issues a token whose verification before expiry returns
id 1, username admin, email admin at example dot com, and the profile route
renders exactly those three fields. -/
theorem c7_claims_fields (secret : String) (now now2 : Nat) (h : now2 < now + 3600) :
    loginRoute secret now ⟨some "admin", some "password123"⟩ =
      ⟨200, "Login successful",
        some (Jwt.sign ⟨1, "admin", "admin@example.com"⟩ secret now 3600)⟩ ∧
    Jwt.verify (Jwt.sign ⟨1, "admin", "admin@example.com"⟩ secret now 3600) secret now2 =
      .ok ⟨1, "admin", "admin@example.com"⟩ ∧
    profileUser ⟨1, "admin", "admin@example.com"⟩ =
      [("id", JVal.n 1), ("username", JVal.s "admin"), ("email", JVal.s "admin@example.com")] := by
  refine ⟨?_, verify_sign_ok ⟨1, "admin", "admin@example.com"⟩ secret now now2 3600 h, rfl⟩
  unfold loginRoute
  rw [if_neg (by decide), if_pos (by decide)]
  rfl

/-- C7 witness: the amended statement at a concrete secret and instant. -/
theorem c7_claims_fields_witness :
    loginRoute "s" 0 ⟨some "admin", some "password123"⟩ =
      ⟨200, "Login successful",
        some (Jwt.sign ⟨1, "admin", "admin@example.com"⟩ "s" 0 3600)⟩ ∧
    Jwt.verify (Jwt.sign ⟨1, "admin", "admin@example.com"⟩ "s" 0 3600) "s" 100 =
      .ok ⟨1, "admin", "admin@example.com"⟩ ∧
    profileUser ⟨1, "admin", "admin@example.com"⟩ =
      [("id", JVal.n 1), ("username", JVal.s "admin"), ("email", JVal.s "admin@example.com")] :=
  c7_claims_fields "s" 0 100 (by decide)

/-- C10: Constant access level — for every request passing verification, the
accessLevel field of the user-data response is the constant string admin,
whatever the verified claims are; only the userId field is derived from the
token, so two claims objects with the same id render identical data
objects. -/
theorem c10_constant_access_level (u : Claims) (la : String) :
    List.lookup "accessLevel" (userDataFields u la) = some (JVal.s "admin") ∧
    List.lookup "userId" (userDataFields u la) = some (JVal.n u.id) ∧
    ∀ u2 : Claims, u2.id = u.id → userDataFields u2 la = userDataFields u la := by
  refine ⟨?_, ?_, ?_⟩
  · simp [userDataFields, List.lookup]
  · simp [userDataFields, List.lookup]
  · intro u2 h
    simp [userDataFields, h]

/-- C10 witness: concrete claims with a different username and email render
the same data object, with accessLevel admin. -/
theorem c10_constant_access_level_witness :
    List.lookup "accessLevel" (userDataFields ⟨7, "someone", "someone@example.com"⟩ "T") =
      some (JVal.s "admin") ∧
    userDataFields ⟨7, "other", "other@example.com"⟩ "T" =
      userDataFields ⟨7, "someone", "someone@example.com"⟩ "T" := by
  refine ⟨(c10_constant_access_level ⟨7, "someone", "someone@example.com"⟩ "T").1, ?_⟩
  exact (c10_constant_access_level ⟨7, "someone", "someone@example.com"⟩ "T").2.2
    ⟨7, "other", "other@example.com"⟩ rfl

end ExpressJwt
